import Mathlib

/-!
Verification of the SoulPainterMinis backend (src/main.py).

The estimate calculator (`POST /api/estimate`) is modelled with exact
rationals for the numeric values, Lean `String` for the tier and add-on
labels, `pyLower` for Python's `str.lower()` and `round2` for Python's
`round(_, 2)`.  The contact handler (`POST /api/contact`) is modelled at
the character-list level so that the Python string operations
`split(',')` and `strip()` can be reasoned about structurally; the
database collaborator is an optional fallible function.
-/

namespace SoulPainter

/-- Request body of `POST /api/estimate` (class `EstimateRequest`). -/
structure EstimateRequest where
  box_price : ℚ
  tier : String
  addons : List String
deriving DecidableEq

/-- Python's `str.lower()`, modelled as character-wise (ASCII) lowercasing. -/
def pyLower (s : String) : String :=
  ⟨s.data.map Char.toLower⟩

/-- `2 if req.tier.lower() == "shikai" else 4` (src/main.py line 130). -/
def base_multiplier (tier : String) : ℚ :=
  if pyLower tier = "shikai" then 2 else 4

/-- The fixed surcharge table `addon_map` (src/main.py lines 132-139). -/
def addon_map : List (String × ℚ) :=
  [("OSL Effects", 0.2),
   ("Weathering / Battle Damage", 0.15),
   ("Advanced Basing", 0.15),
   ("Fine Freehand Details", 0.25),
   ("Conversions / Kitbashing", 0.3),
   ("Magnetization", 0.1)]

/-- `addon_map.get(a, 0)`: the label's surcharge fraction, `0` when absent. -/
def addonGet (a : String) : ℚ :=
  (addon_map.lookup a).getD 0

/-- Python's `round` to the nearest integer, with ties going to the even
integer (banker's rounding). -/
def pyRound (x : ℚ) : ℤ :=
  if x - ⌊x⌋ < 1/2 then ⌊x⌋
  else if 1/2 < x - ⌊x⌋ then ⌊x⌋ + 1
  else if ⌊x⌋ % 2 = 0 then ⌊x⌋ else ⌊x⌋ + 1

/-- Python's `round(x, 2)`: round to an integer number of hundredths. -/
def round2 (x : ℚ) : ℚ :=
  (pyRound (x * 100) : ℚ) / 100

/-- The running total before rounding: `total = box_price * base_multiplier`
followed by the fold `for a in req.addons: total += box_price * addon_map.get(a, 0)`
(src/main.py lines 130-141). -/
def estimate_total (req : EstimateRequest) : ℚ :=
  req.addons.foldl (fun t a => t + req.box_price * addonGet a)
    (req.box_price * base_multiplier req.tier)

/-- Response body of `POST /api/estimate`. -/
structure EstimateResponse where
  estimated_total : ℚ
deriving DecidableEq

/-- The `estimate` endpoint handler (src/main.py lines 128-142):
returns `{"estimated_total": round(total, 2)}`. -/
def estimate (req : EstimateRequest) : EstimateResponse :=
  ⟨round2 (estimate_total req)⟩

/-! ### Helper lemmas for the estimate calculator -/

lemma base_multiplier_of_shikai {tier : String} (h : pyLower tier = "shikai") :
    base_multiplier tier = 2 := by
  rw [base_multiplier, if_pos h]

lemma base_multiplier_of_ne {tier : String} (h : pyLower tier ≠ "shikai") :
    base_multiplier tier = 4 := by
  rw [base_multiplier, if_neg h]

lemma addonGet_of_not_mem {a : String} (h : a ∉ addon_map.map Prod.fst) :
    addonGet a = 0 := by
  simp only [addon_map, List.map_cons, List.map_nil, List.mem_cons,
    List.not_mem_nil, or_false, not_or] at h
  obtain ⟨h1, h2, h3, h4, h5, h6⟩ := h
  have b1 : (a == "OSL Effects") = false := beq_eq_false_iff_ne.mpr h1
  have b2 : (a == "Weathering / Battle Damage") = false := beq_eq_false_iff_ne.mpr h2
  have b3 : (a == "Advanced Basing") = false := beq_eq_false_iff_ne.mpr h3
  have b4 : (a == "Fine Freehand Details") = false := beq_eq_false_iff_ne.mpr h4
  have b5 : (a == "Conversions / Kitbashing") = false := beq_eq_false_iff_ne.mpr h5
  have b6 : (a == "Magnetization") = false := beq_eq_false_iff_ne.mpr h6
  simp [addonGet, addon_map, List.lookup, b1, b2, b3, b4, b5, b6]

lemma foldl_addon (bp : ℚ) (l : List String) (init : ℚ) :
    l.foldl (fun t a => t + bp * addonGet a) init
      = init + (l.map fun a => bp * addonGet a).sum := by
  induction l generalizing init with
  | nil => simp
  | cons a t ih =>
    rw [List.foldl_cons, ih, List.map_cons, List.sum_cons]
    ring

lemma estimate_total_eq_sum (req : EstimateRequest) :
    estimate_total req
      = req.box_price * base_multiplier req.tier
        + (req.addons.map fun a => req.box_price * addonGet a).sum := by
  rw [estimate_total, foldl_addon]

lemma pyRound_intCast (n : ℤ) : pyRound (n : ℚ) = n := by
  norm_num [pyRound]

lemma round2_intCast (n : ℤ) : round2 (n : ℚ) = n := by
  have h : ((n : ℚ) * 100) = ((n * 100 : ℤ) : ℚ) := by push_cast; ring
  rw [round2, h, pyRound_intCast]
  push_cast
  rw [mul_div_assoc]
  norm_num

lemma estimate_eval (bp : ℚ) (tier : String) (addons : List String) (n : ℤ)
    (h : estimate_total ⟨bp, tier, addons⟩ = (n : ℚ)) :
    estimate ⟨bp, tier, addons⟩ = ⟨(n : ℚ)⟩ := by
  rw [estimate, h, round2_intCast]

/-! ### Claims about the estimate calculator -/

/-- C1: for every box_price, tier and addons list, `estimate` returns
`round(box_price * m + Σ_{label ∈ addons} box_price * fraction(label), 2)`,
where `m` is the base multiplier selected from the tier and `fraction` is
the fixed surcharge table lookup (0 when absent). -/
theorem estimate_returns_rounded_formula (req : EstimateRequest) :
    estimate req
      = ⟨round2 (req.box_price * base_multiplier req.tier
          + (req.addons.map fun a => req.box_price * addonGet a).sum)⟩ := by
  rw [estimate, estimate_total_eq_sum]

/-- C2: the base multiplier is exactly 2 when the lowercased tier equals
"shikai" and exactly 4 for every other tier string; there is no third
multiplier. -/
theorem base_multiplier_two_cases (tier : String) :
    (pyLower tier = "shikai" → base_multiplier tier = 2) ∧
    (pyLower tier ≠ "shikai" → base_multiplier tier = 4) :=
  ⟨base_multiplier_of_shikai, base_multiplier_of_ne⟩

/-- Witness for C2: the three casings of "shikai" give multiplier 2, and
the empty string and an unrecognized tier give multiplier 4. -/
theorem base_multiplier_two_cases_witness :
    base_multiplier "Shikai" = 2 ∧ base_multiplier "SHIKAI" = 2 ∧
    base_multiplier "shikai" = 2 ∧ base_multiplier "" = 4 ∧
    base_multiplier "bankai" = 4 :=
  ⟨(base_multiplier_two_cases "Shikai").1 (by decide),
   (base_multiplier_two_cases "SHIKAI").1 (by decide),
   (base_multiplier_two_cases "shikai").1 (by decide),
   (base_multiplier_two_cases "").2 (by decide),
   (base_multiplier_two_cases "bankai").2 (by decide)⟩

/-- C3: the fixed surcharge table maps exactly the six documented labels
to 0.20, 0.15, 0.15, 0.25, 0.30 and 0.10, and contains no other entry,
so every other label looks up to 0. -/
theorem addon_map_exact_entries :
    addonGet "OSL Effects" = 0.2 ∧
    addonGet "Weathering / Battle Damage" = 0.15 ∧
    addonGet "Advanced Basing" = 0.15 ∧
    addonGet "Fine Freehand Details" = 0.25 ∧
    addonGet "Conversions / Kitbashing" = 0.3 ∧
    addonGet "Magnetization" = 0.1 ∧
    addon_map.map Prod.fst = ["OSL Effects", "Weathering / Battle Damage",
      "Advanced Basing", "Fine Freehand Details", "Conversions / Kitbashing",
      "Magnetization"] ∧
    ∀ a : String, a ∉ addon_map.map Prod.fst → addonGet a = 0 := by
  refine ⟨?_, ?_, ?_, ?_, ?_, ?_, rfl, fun a h => addonGet_of_not_mem h⟩ <;>
    simp [addonGet, addon_map, List.lookup]

/-- Witness for C3: a concrete known label and a concrete absent label. -/
theorem addon_map_exact_entries_witness :
    addonGet "Magnetization" = 0.1 ∧ addonGet "Not A Real Addon" = 0 :=
  ⟨addon_map_exact_entries.2.2.2.2.2.1,
   addon_map_exact_entries.2.2.2.2.2.2.2 "Not A Real Addon" (by decide)⟩

/-- C4: an addon label absent from the surcharge table contributes zero:
`estimate(100, "shikai", ["Nonexistent Addon"]) = 200`, and appending an
unknown label to any addons list leaves the result unchanged. -/
theorem unknown_addon_contributes_zero :
    estimate ⟨100, "shikai", ["Nonexistent Addon"]⟩ = ⟨200⟩ ∧
    ∀ (bp : ℚ) (tier : String) (addons : List String) (label : String),
      label ∉ addon_map.map Prod.fst →
        estimate ⟨bp, tier, addons ++ [label]⟩ = estimate ⟨bp, tier, addons⟩ := by
  constructor
  · apply estimate_eval 100 "shikai" ["Nonexistent Addon"] 200
    have hb : pyLower "shikai" = "shikai" := by decide
    have h0 : addonGet "Nonexistent Addon" = 0 := addonGet_of_not_mem (by decide)
    rw [estimate_total_eq_sum, base_multiplier_of_shikai hb]
    simp [h0]
    norm_num
  · intro bp tier addons label hl
    have h0 : addonGet label = 0 := addonGet_of_not_mem hl
    rw [estimate, estimate, estimate_total, estimate_total, List.foldl_append]
    simp [h0]

/-- Witness for C4: appending a concrete unknown label changes nothing. -/
theorem unknown_addon_contributes_zero_witness :
    estimate ⟨7, "bankai", ["Magnetization"] ++ ["Mystery"]⟩
      = estimate ⟨7, "bankai", ["Magnetization"]⟩ :=
  unknown_addon_contributes_zero.2 7 "bankai" ["Magnetization"] "Mystery" (by decide)

/-- C5: the surcharge is applied once per occurrence in the addons list
(sum over the list, not the set): the pre-rounding total of `a :: addons`
exceeds that of `addons` by exactly `box_price * fraction(a)`, and
`estimate(50, "shikai", ["Magnetization", "Magnetization"]) = 110`. -/
theorem addon_surcharge_per_occurrence :
    estimate ⟨50, "shikai", ["Magnetization", "Magnetization"]⟩ = ⟨110⟩ ∧
    (∀ req : EstimateRequest,
      estimate_total req = req.box_price * base_multiplier req.tier
        + (req.addons.map fun a => req.box_price * addonGet a).sum) ∧
    ∀ (bp : ℚ) (tier : String) (addons : List String) (a : String),
      estimate_total ⟨bp, tier, a :: addons⟩
        = estimate_total ⟨bp, tier, addons⟩ + bp * addonGet a := by
  refine ⟨?_, estimate_total_eq_sum, ?_⟩
  · apply estimate_eval 50 "shikai" ["Magnetization", "Magnetization"] 110
    have hb : pyLower "shikai" = "shikai" := by decide
    have hm : addonGet "Magnetization" = 0.1 := by
      simp [addonGet, addon_map, List.lookup]
    rw [estimate_total_eq_sum, base_multiplier_of_shikai hb]
    simp [hm]
    norm_num
  · intro bp tier addons a
    rw [estimate_total_eq_sum, estimate_total_eq_sum]
    simp only [List.map_cons, List.sum_cons]
    ring

/-- C6: the returned total is always an integer number of hundredths,
i.e. it has at most 2 decimal digits. -/
theorem estimate_at_most_two_decimals (req : EstimateRequest) :
    ∃ k : ℤ, (estimate req).estimated_total = (k : ℚ) / 100 :=
  ⟨pyRound (estimate_total req * 100), rfl⟩

/-- C7: `estimate` is deterministic and pure: identical requests produce
identical responses, the response being a function of the request alone. -/
theorem estimate_deterministic (r₁ r₂ : EstimateRequest) (h : r₁ = r₂) :
    estimate r₁ = estimate r₂ := by
  rw [h]

/-- Witness for C7: two identical concrete invocations agree. -/
theorem estimate_deterministic_witness :
    estimate ⟨100, "shikai", ["Magnetization"]⟩
      = estimate ⟨100, "shikai", ["Magnetization"]⟩ :=
  estimate_deterministic ⟨100, "shikai", ["Magnetization"]⟩
    ⟨100, "shikai", ["Magnetization"]⟩ rfl

/-- C8: the calculator is total: every input, including a negative
box_price, an empty tier and arbitrary addons, yields a response; negative
prices propagate arithmetically. -/
theorem estimate_defined_on_all_inputs :
    (∀ (bp : ℚ) (tier : String) (addons : List String),
      ∃ r : EstimateResponse, estimate ⟨bp, tier, addons⟩ = r) ∧
    estimate ⟨-100, "", ["OSL Effects"]⟩ = ⟨-420⟩ := by
  refine ⟨fun bp tier addons => ⟨_, rfl⟩, ?_⟩
  apply estimate_eval (-100) "" ["OSL Effects"] (-420)
  have hb : pyLower "" ≠ "shikai" := by decide
  have h : addonGet "OSL Effects" = 0.2 := by
    simp [addonGet, addon_map, List.lookup]
  rw [estimate_total_eq_sum, base_multiplier_of_ne hb]
  simp [h]
  norm_num

/-! ### The contact handler (`POST /api/contact`, src/main.py lines 74-119)

Python strings are modelled as `List Char` here so that `split(',')` and
`strip()` can be reasoned about structurally. -/

/-- Python's `str.strip()`: drop whitespace from both ends. -/
def pyStrip (l : List Char) : List Char :=
  ((l.dropWhile Char.isWhitespace).reverse.dropWhile Char.isWhitespace).reverse

/-- Python's `str.split(',')`: split into the (never empty) list of
comma-separated segments; `"".split(',') = [""]`. -/
def pySplitComma : List Char → List (List Char)
  | [] => [[]]
  | c :: rest =>
    if c = ',' then [] :: pySplitComma rest
    else (c :: (pySplitComma rest).headD []) :: (pySplitComma rest).tail

/-- `[a.strip() for a in (addons or '').split(',') if a.strip()]`
(src/main.py line 90): split the optional comma-separated field, strip
each segment, drop the segments that strip to empty. -/
def parse_addons (addons : Option (List Char)) : List (List Char) :=
  ((pySplitComma (addons.getD [])).map pyStrip).filter (fun a => !a.isEmpty)

/-- One uploaded file: its metadata and the result of reading its bytes
(`.error` models a read that raises). -/
structure FileUpload where
  filename : List Char
  content_type : List Char
  readBytes : Except Unit (List Char)

/-- One recorded `file_info` entry (src/main.py lines 91-100). -/
structure FileInfo where
  filename : List Char
  content_type : List Char
  size : Option Nat

/-- The per-file try/except of src/main.py lines 93-100: a successful read
records the byte count, a failed read records an unknown size. -/
def file_info_of (f : FileUpload) : FileInfo :=
  match f.readBytes with
  | .ok chunk => ⟨f.filename, f.content_type, some chunk.length⟩
  | .error _ => ⟨f.filename, f.content_type, none⟩

/-- The payload persisted (and echoed) by the contact handler
(src/main.py lines 102-110). -/
structure ContactDoc where
  name : List Char
  email : List Char
  description : List Char
  tier : Option (List Char)
  addons : List (List Char)
  files : List FileInfo
  source : List Char

/-- The JSON response of the contact handler (src/main.py line 119). -/
structure ContactResponse where
  ok : Bool
  message : List Char
  id : Option (List Char)
  received : ContactDoc

/-- The `submit_contact` handler (src/main.py lines 74-119).  The database
collaborator is passed as `create_document`: `none` models the failed
`from database import create_document` (the import try/except of lines
85-88), and a `some f` whose result is `.error` models `create_document`
raising; in both cases `inserted_id` stays `None` (lines 112-117) and the
response is built with `ok: True` regardless (line 119). -/
def submit_contact
    (create_document : Option (List Char → ContactDoc → Except (List Char) (List Char)))
    (name email description : List Char)
    (tier : Option (List Char)) (addons : Option (List Char))
    (files : Option (List FileUpload)) : ContactResponse :=
  let addons_list := parse_addons addons
  let file_info := (files.getD []).map file_info_of
  let payload : ContactDoc :=
    ⟨name, email, description, tier, addons_list, file_info, "website".data⟩
  let inserted_id : Option (List Char) :=
    match create_document with
    | none => none
    | some f =>
      match f "contactrequest".data payload with
      | .ok i => some i
      | .error _ => none
  ⟨true, "Thanks! We\x27ll get back to you within 24-48 hours.".data,
    inserted_id, payload⟩

/-! ### Helper lemmas for the contact handler -/

lemma dropWhile_dropWhile {α : Type} (p : α → Bool) (l : List α) :
    (l.dropWhile p).dropWhile p = l.dropWhile p := by
  induction l with
  | nil => rfl
  | cons a t ih =>
    by_cases h : p a = true
    · rw [List.dropWhile_cons, if_pos h]
      exact ih
    · rw [List.dropWhile_cons, if_neg h, List.dropWhile_cons, if_neg h]

lemma dropWhile_head_false {α : Type} {p : α → Bool} {l : List α} :
    ∀ {a : α} {t : List α}, l.dropWhile p = a :: t → p a = false := by
  induction l with
  | nil =>
    intro a t h
    simp [List.dropWhile] at h
  | cons b s ih =>
    intro a t h
    rw [List.dropWhile_cons] at h
    by_cases hb : p b = true
    · rw [if_pos hb] at h
      exact ih h
    · rw [if_neg hb] at h
      injection h with h1 h2
      subst h1
      exact Bool.eq_false_iff.mpr hb

lemma pyStrip_eq_nil_of_all_ws {l : List Char}
    (h : ∀ c ∈ l, c.isWhitespace = true) : pyStrip l = [] := by
  have h1 : l.dropWhile Char.isWhitespace = [] := List.dropWhile_eq_nil_iff.mpr h
  rw [pyStrip, h1]
  rfl

lemma pyStrip_idem (l : List Char) : pyStrip (pyStrip l) = pyStrip l := by
  have hL : (pyStrip l).dropWhile Char.isWhitespace = pyStrip l := by
    rcases hr : pyStrip l with _ | ⟨a, t⟩
    · rfl
    · have hsuf :
          (List.dropWhile Char.isWhitespace l).reverse.dropWhile Char.isWhitespace
            <:+ (List.dropWhile Char.isWhitespace l).reverse :=
        List.dropWhile_suffix _
      have hpre : pyStrip l <+: List.dropWhile Char.isWhitespace l := by
        have h2 := hsuf.reverse
        rwa [List.reverse_reverse] at h2
      obtain ⟨u, hu⟩ := hpre
      rw [hr, List.cons_append] at hu
      have hfalse : Char.isWhitespace a = false := dropWhile_head_false hu.symm
      rw [List.dropWhile_cons, if_neg (by simp [hfalse])]
  have hR : (pyStrip l).reverse.dropWhile Char.isWhitespace = (pyStrip l).reverse := by
    rw [pyStrip, List.reverse_reverse]
    exact dropWhile_dropWhile _ _
  conv_lhs => rw [pyStrip]
  rw [hL, hR, List.reverse_reverse]

lemma pySplitComma_ne_nil (l : List Char) : pySplitComma l ≠ [] := by
  cases l with
  | nil => simp [pySplitComma]
  | cons c rest =>
    by_cases h : c = ','
    · simp [pySplitComma, h]
    · simp [pySplitComma, h]

lemma mem_of_mem_pySplitComma :
    ∀ {l seg : List Char}, seg ∈ pySplitComma l →
      ∀ {c : Char}, c ∈ seg → c ∈ l ∧ c ≠ ',' := by
  intro l
  induction l with
  | nil =>
    intro seg hseg c hc
    simp [pySplitComma] at hseg
    subst hseg
    simp at hc
  | cons b rest ih =>
    intro seg hseg c hc
    rw [pySplitComma] at hseg
    by_cases hb : b = ','
    · rw [if_pos hb] at hseg
      rcases List.mem_cons.mp hseg with h1 | h2
      · subst h1
        simp at hc
      · obtain ⟨hcl, hcc⟩ := ih h2 hc
        exact ⟨List.mem_cons_of_mem _ hcl, hcc⟩
    · rw [if_neg hb] at hseg
      rcases List.mem_cons.mp hseg with h1 | h2
      · subst h1
        rcases List.mem_cons.mp hc with rfl | hmem
        · exact ⟨List.mem_cons_self _ _, hb⟩
        · have hhd : (pySplitComma rest).headD [] ∈ pySplitComma rest := by
            rcases hps : pySplitComma rest with _ | ⟨x, xs⟩
            · exact absurd hps (pySplitComma_ne_nil rest)
            · simp
          obtain ⟨hcl, hcc⟩ := ih hhd hmem
          exact ⟨List.mem_cons_of_mem _ hcl, hcc⟩
      · obtain ⟨hcl, hcc⟩ := ih (List.mem_of_mem_tail h2) hc
        exact ⟨List.mem_cons_of_mem _ hcl, hcc⟩

/-- C9: if the database collaborator is unavailable (`none`) or fails on
every call, the contact handler still returns `ok = true` with a null id:
persistence failure never fails the request. -/
theorem contact_persistence_best_effort
    (create_document : Option (List Char → ContactDoc → Except (List Char) (List Char)))
    (name email description : List Char)
    (tier : Option (List Char)) (addons : Option (List Char))
    (files : Option (List FileUpload))
    (hfail : ∀ f, create_document = some f →
      ∀ coll doc, ∃ e, f coll doc = Except.error e) :
    (submit_contact create_document name email description tier addons files).ok
        = true ∧
    (submit_contact create_document name email description tier addons files).id
        = none := by
  cases create_document with
  | none => exact ⟨rfl, rfl⟩
  | some f =>
    obtain ⟨e, he⟩ := hfail f rfl "contactrequest".data
      ⟨name, email, description, tier, parse_addons addons,
        (files.getD []).map file_info_of, "website".data⟩
    exact ⟨rfl, by simp [submit_contact, he]⟩

/-- Witness for C9: a collaborator that always raises still yields a
successful response with a null id. -/
theorem contact_persistence_best_effort_witness :
    (submit_contact (some fun _ _ => Except.error "db down".data)
        "n".data "e".data "d".data none none none).ok = true ∧
    (submit_contact (some fun _ _ => Except.error "db down".data)
        "n".data "e".data "d".data none none none).id = none :=
  contact_persistence_best_effort
    (some fun _ _ => Except.error "db down".data)
    "n".data "e".data "d".data none none none
    (fun f hf coll doc => by cases hf; exact ⟨"db down".data, rfl⟩)

/-- C10: the optional addons form field is parsed by splitting on commas,
stripping each segment and dropping empty segments: an absent field or a
string of only commas and whitespace yields `[]`, and every label in the
parsed (and persisted) list is non-empty and carries no surrounding
whitespace. -/
theorem contact_addons_parsing :
    parse_addons none = [] ∧
    (∀ s : List Char, (∀ c ∈ s, c = ',' ∨ c.isWhitespace = true) →
      parse_addons (some s) = []) ∧
    (∀ (x : Option (List Char)) (l : List Char),
      l ∈ parse_addons x → l ≠ [] ∧ pyStrip l = l) ∧
    (∀ create_document name email description tier addons files,
      (submit_contact create_document name email description tier addons
          files).received.addons = parse_addons addons) := by
  refine ⟨rfl, ?_, ?_, fun _ _ _ _ _ _ _ => rfl⟩
  · intro s hs
    rw [parse_addons]
    apply List.filter_eq_nil_iff.mpr
    intro a ha
    obtain ⟨seg, hseg, rfl⟩ := List.mem_map.mp ha
    have hws : ∀ c ∈ seg, c.isWhitespace = true := by
      intro c hc
      obtain ⟨hcl, hcc⟩ := mem_of_mem_pySplitComma hseg hc
      rcases hs c hcl with h | h
      · exact absurd h hcc
      · exact h
    rw [pyStrip_eq_nil_of_all_ws hws]
    simp
  · intro x l hl
    rw [parse_addons] at hl
    obtain ⟨hmem, hne⟩ := List.mem_filter.mp hl
    obtain ⟨seg, hseg, rfl⟩ := List.mem_map.mp hmem
    refine ⟨?_, pyStrip_idem seg⟩
    intro hnil
    rw [hnil] at hne
    simp at hne

/-- Witness for C10: a field of commas, spaces and a tab parses to the
empty list, and a concrete parsed label is non-empty and already
stripped. -/
theorem contact_addons_parsing_witness :
    parse_addons (some (" , ,\t".data)) = [] ∧
    ("ab".data ≠ [] ∧ pyStrip "ab".data = "ab".data) :=
  ⟨contact_addons_parsing.2.1 (" , ,\t".data) (by decide),
   contact_addons_parsing.2.2.1 (some (" ab ,".data)) "ab".data (by decide)⟩

end SoulPainter
